import Mathlib

/-!
Shallow embedding of the resumable two-phase scraper (`main3.py`):
the persisted progress ledger (`ProgressTracker`), filename sanitization,
the HTML content extractors, the chunked downloader, per-item processing
(`process_song`) and the phase orchestrator (`scrape_phase`), together with
theorems checking the specification's claims about them.

External effects (filesystem, network, wall clock) are passed in as explicit
oracle values; machine-level details that no claim touches (floating point
formatting of the size suffix in one console message) are noted where they
are elided.
-/

namespace Loveworld

/-! ## Progress Store (`ProgressTracker` in `main3.py`)

The ledger's two maps are modelled as functions `String → Option _`;
a Python dict assignment becomes a pointwise update. `time.time()` is an
oracle: each mutating operation takes the timestamp as an argument. -/

/-- One value of `data["completed"][url]`: `{"lyrics": .., "audio": .., "timestamp": ..}`. -/
structure CompletedEntry where
  lyrics : Bool
  audio : Bool
  timestamp : Nat
deriving DecidableEq

/-- One value of `data["failed"][url]`: `{"reason": .., "timestamp": ..}`. -/
structure FailedEntry where
  reason : String
  timestamp : Nat
deriving DecidableEq

/-- The in-memory ledger `self.data` with its `completed` and `failed` maps. -/
structure ProgressData where
  completed : String → Option CompletedEntry
  failed : String → Option FailedEntry

/-- The state `{"completed": {}, "failed": {}}`. -/
def emptyProgress : ProgressData := ⟨fun _ => none, fun _ => none⟩

/-- `ProgressTracker.is_completed`: `url in self.data["completed"]`. -/
def is_completed (d : ProgressData) (url : String) : Bool :=
  (d.completed url).isSome

/-- `ProgressTracker.mark_completed`: overwrites `completed[url]` with the given
flags plus the current timestamp (then calls `_save`, modelled separately). -/
def mark_completed (d : ProgressData) (url : String) (has_lyrics has_audio : Bool)
    (t : Nat) : ProgressData :=
  { d with completed := fun u => if u = url then some ⟨has_lyrics, has_audio, t⟩
      else d.completed u }

/-- `ProgressTracker.needs_audio`: `not completed[url].get("audio", False)` when
the entry exists, else `True`. -/
def needs_audio (d : ProgressData) (url : String) : Bool :=
  match d.completed url with
  | some e => ! e.audio
  | none => true

/-- `ProgressTracker.needs_lyrics`: `not completed[url].get("lyrics", False)` when
the entry exists, else `True`. -/
def needs_lyrics (d : ProgressData) (url : String) : Bool :=
  match d.completed url with
  | some e => ! e.lyrics
  | none => true

/-- `ProgressTracker.mark_failed`: overwrites `failed[url]` with reason and
timestamp (then calls `_save`); the `completed` map is not touched. -/
def mark_failed (d : ProgressData) (url reason : String) (t : Nat) : ProgressData :=
  { d with failed := fun u => if u = url then some ⟨reason, t⟩ else d.failed u }

/-! ## JSON values and `ProgressTracker._load`

`json.load` can return any JSON value, so `_load` is modelled over a JSON
datatype. Its input oracle is `Option (Option Json)`:
`none` = the ledger file does not exist (`self.filepath.exists()` false);
`some none` = opening, reading or parsing raised (caught by the bare
`except Exception`); `some (some j)` = the content parsed to `j`. -/

inductive Json where
  | null
  | bool (b : Bool)
  | num (n : Int)
  | str (s : String)
  | arr (elems : List Json)
  | obj (fields : List (String × Json))

/-- Key lookup in a JSON object's field list. -/
def lookupField (fields : List (String × Json)) (k : String) : Option Json :=
  match fields with
  | [] => none
  | (a, v) :: rest => if a = k then some v else lookupField rest k

/-- The empty state `{"completed": {}, "failed": {}}` that `_load` falls back to. -/
def emptyStateJson : Json := .obj [("completed", .obj []), ("failed", .obj [])]

/-- `ProgressTracker._load`: returns the parsed JSON when the file exists and
parses; returns the empty state when the file is missing or any exception was
raised while reading or parsing. Never raises (total function). -/
def tracker_load (file : Option (Option Json)) : Json :=
  match file with
  | some (some j) => j
  | some none => emptyStateJson
  | none => emptyStateJson

/-- A JSON value shaped like a progress state: an object carrying `completed`
and `failed` keys whose values are objects. -/
def isStateJson : Json → Bool
  | .obj fields =>
    (match lookupField fields "completed" with
     | some (.obj _) => true
     | _ => false) &&
    (match lookupField fields "failed" with
     | some (.obj _) => true
     | _ => false)
  | _ => false

/-! ## `ProgressTracker._save`

The disk is an oracle: `none` = the write succeeds, `some e` = opening or
writing raises with message `e`. The bare `except Exception` prints a
warning and returns normally, so the function is total: no exception ever
propagates to the caller and the phase continues. -/

/-- What a `_save` call did: whether the ledger reached disk, and the console
warning printed when it did not. -/
structure SaveOutcome where
  persisted : Bool
  warning : Option String
deriving DecidableEq

/-- `ProgressTracker._save`: write-through persist; on any exception, print
`Could not save progress: ...` and carry on. -/
def tracker_save (writeError : Option String) : SaveOutcome :=
  match writeError with
  | none => { persisted := true, warning := none }
  | some e => { persisted := false, warning := some ("Could not save progress: " ++ e) }

/-! ## `sanitize_filename` -/

/-- The characters removed by `re.sub(r'[\\/*?:"<>|]', "", name)`. -/
def illegalChar (c : Char) : Bool :=
  c = '\\' || c = '/' || c = '*' || c = '?' || c = ':' || c = '"' ||
    c = '<' || c = '>' || c = '|'

/-- Whitespace in the sense of Python's `str.strip` and the `\s` class
(ASCII part; the model uses this one fixed set throughout). -/
def pyWs (c : Char) : Bool :=
  c = ' ' || c = '\t' || c = '\n' || c = '\r' || c = '\x0b' || c = '\x0c'

/-- Python `str.strip()`: drop leading and trailing whitespace. -/
def pyStrip (l : List Char) : List Char :=
  ((l.dropWhile pyWs).reverse.dropWhile pyWs).reverse

/-- `re.sub(r'\s+', ' ', s)`: replace each maximal whitespace run by one space. -/
def collapseWs : List Char → List Char
  | [] => []
  | a :: rest =>
    match rest with
    | [] => if pyWs a then [' '] else [a]
    | b :: rest2 =>
      if pyWs a then
        if pyWs b then collapseWs (b :: rest2)
        else ' ' :: collapseWs (b :: rest2)
      else a :: collapseWs (b :: rest2)

/-- `sanitize_filename`: remove illegal characters, strip, collapse runs of
whitespace to single spaces, truncate to 200 characters. -/
def sanitize_filename (name : String) : String :=
  let removed := name.toList.filter (fun c => ! illegalChar c)
  let stripped := pyStrip removed
  let collapsed := collapseWs stripped
  String.mk (collapsed.take 200)

/-- No two adjacent characters are both whitespace. -/
def noConsecWs : List Char → Bool
  | a :: b :: rest => (!(pyWs a && pyWs b)) && noConsecWs (b :: rest)
  | _ => true

/-! ## Parsed HTML documents

`BeautifulSoup(...)` is modelled as a tree of elements and text nodes; a
document is the list of top-level nodes. `find` returns the first matching
element in document (preorder) order; `tag.find` searches the tag's
descendants only, mirroring the library. -/

inductive Html where
  | text (s : String)
  | elem (tag : String) (attrs : List (String × String)) (children : List Html)

/-- Attribute lookup on an element's attribute list. -/
def getAttr (attrs : List (String × String)) (k : String) : Option String :=
  match attrs with
  | [] => none
  | (a, v) :: rest => if a = k then some v else getAttr rest k

def tagOf : Html → Option String
  | .elem t _ _ => some t
  | .text _ => none

def isTag (t : String) (h : Html) : Bool := tagOf h == some t

def childrenOf : Html → List Html
  | .elem _ _ c => c
  | .text _ => []

def attrOf (h : Html) (k : String) : Option String :=
  match h with
  | .elem _ attrs _ => getAttr attrs k
  | .text _ => none

mutual
/-- First node in this subtree (the node itself included) satisfying `p`. -/
def findNode (p : Html → Bool) : Html → Option Html
  | .text _ => none
  | .elem t a c => if p (.elem t a c) then some (.elem t a c) else findList p c
/-- `soup.find(...)` over a node list: first match in preorder. -/
def findList (p : Html → Bool) : List Html → Option Html
  | [] => none
  | x :: xs =>
    match findNode p x with
    | some r => some r
    | none => findList p xs
end

/-- `find(tagname)` over a node list. -/
def findTag (t : String) (doc : List Html) : Option Html :=
  findList (fun e => isTag t e) doc

mutual
/-- All elements of a subtree in preorder (text nodes dropped). -/
def elemsNode : Html → List Html
  | .text _ => []
  | .elem t a c => .elem t a c :: elemsList c
/-- All elements under a node list in preorder: the order `find_all` uses. -/
def elemsList : List Html → List Html
  | [] => []
  | x :: xs => elemsNode x ++ elemsList xs
end

mutual
/-- `get_text()` after every `br` descendant was replaced by a newline text
node: concatenate the subtree's strings, rendering a `br` element as `"\n"`. -/
def textBrNode : Html → String
  | .text s => s
  | .elem t _ c => if t = "br" then "\n" else textBrList c
def textBrList : List Html → String
  | [] => ""
  | x :: xs => textBrNode x ++ textBrList xs
end

/-! ## String helpers mirroring the Python builtins used by the source
(implemented over `List Char` so that concrete instances compute). -/

/-- Python `s.lower()` (per character). -/
def lowerStr (s : String) : String := String.mk (s.toList.map Char.toLower)

/-- `l` ends with `pat`. -/
def endsWithL (l pat : List Char) : Bool :=
  decide (pat.length ≤ l.length) && (l.drop (l.length - pat.length) == pat)

/-- Python `s.endswith(pat)`. -/
def strEndsWith (s pat : String) : Bool := endsWithL s.toList pat.toList

/-- Python `s.startswith(pat)`. -/
def strStartsWith (s pat : String) : Bool :=
  s.toList.take pat.toList.length == pat.toList

/-- Python `s.split(sep)` for a one-character separator (pieces may be empty,
the list never is). -/
def splitOnC (sep : Char) : List Char → List (List Char)
  | [] => [[]]
  | c :: rest =>
    if c = sep then [] :: splitOnC sep rest
    else
      match splitOnC sep rest with
      | h :: t => (c :: h) :: t
      | [] => [[c]]

def strSplitOnC (s : String) (sep : Char) : List String :=
  (splitOnC sep s.toList).map String.mk

/-- Split at every character satisfying `p` (pieces may be empty). -/
def splitByP (p : Char → Bool) : List Char → List (List Char)
  | [] => [[]]
  | c :: rest =>
    if p c then [] :: splitByP p rest
    else
      match splitByP p rest with
      | h :: t => (c :: h) :: t
      | [] => [[c]]

/-! ## Content extractors (`get_lyrics`, `get_audio_url`) -/

/-- Python string truthiness for an optional attribute value:
`x and x.get(..)` treats a missing or empty string as false. -/
def truthyStr : Option String → Option String
  | some s => if s = "" then none else some s
  | none => none

/-- The element's `class` attribute split on whitespace contains `cls`
(how the library matches a single-class `class_` filter). -/
def classListContains (h : Html) (cls : String) : Bool :=
  match attrOf h "class" with
  | some s => ((splitByP pyWs s.toList).map String.mk).contains cls
  | none => false

/-- `soup.find("div", class_="entry-content entry clearfix")` — a multi-word
class string falls back to matching the whole `class` attribute exactly —
with the fallback `soup.find("div", class_="entry-content")`. -/
def findContentDiv (doc : List Html) : Option Html :=
  match findList (fun e => isTag "div" e &&
      (attrOf e "class" == some "entry-content entry clearfix")) doc with
  | some d => some d
  | none => findList (fun e => isTag "div" e && classListContains e "entry-content") doc

/-- `text.startswith(('Download', 'Listen', 'Share'))`. -/
def boilerplate (t : String) : Bool :=
  strStartsWith t "Download" || strStartsWith t "Listen" || strStartsWith t "Share"

/-- Python `s.strip()` on a `String`. -/
def pyStripStr (s : String) : String := String.mk (pyStrip s.toList)

/-- `get_lyrics`: find the content container, take the text of each `p`
descendant (with `br` rendered as a newline, then stripped), drop empty or
boilerplate paragraphs, and join the rest with blank lines; `None` when no
container or no paragraph survives. -/
def get_lyrics (doc : List Html) : Option String :=
  match findContentDiv doc with
  | none => none
  | some contentDiv =>
    let paragraphs := (elemsList (childrenOf contentDiv)).filter (fun e => isTag "p" e)
    let sections := (paragraphs.map (fun p => pyStripStr (textBrNode p))).filter
      (fun t => t != "" && ! boilerplate t)
    match sections with
    | [] => none
    | _ => some (String.intercalate "\n\n" sections)

/-- The pattern `re.compile(r'\.(mp3|wav|m4a)$', re.I)` against the end of a
string (case-insensitive). -/
def audioExtMatch (s : String) : Bool :=
  let l := lowerStr s
  strEndsWith l ".mp3" || strEndsWith l ".wav" || strEndsWith l ".m4a"

/-- `pattern.search(href)`: `$` also matches just before a trailing newline. -/
def audioHrefSearch (s : String) : Bool :=
  audioExtMatch s || (strEndsWith s "\n" && audioExtMatch (s.dropRight 1))

/-- Strategy 1 of `get_audio_url`: the `src` attribute of the first `audio`
inside the document's first `figure`. -/
def audioStrat1 (doc : List Html) : Option String :=
  match findTag "figure" doc with
  | none => none
  | some fig =>
    match findTag "audio" (childrenOf fig) with
    | none => none
    | some au => truthyStr (attrOf au "src")

/-- Strategy 2: the first `audio` anywhere — its `src` attribute, else the
`src` of its first `source` descendant. -/
def audioStrat2 (doc : List Html) : Option String :=
  match findTag "audio" doc with
  | none => none
  | some au =>
    match truthyStr (attrOf au "src") with
    | some s => some s
    | none =>
      match findTag "source" (childrenOf au) with
      | none => none
      | some sourceEl => truthyStr (attrOf sourceEl "src")

/-- Strategy 3: the first anchor whose `href` matches the audio-extension
pattern. -/
def audioStrat3 (doc : List Html) : Option String :=
  match findList (fun e => isTag "a" e &&
      (match attrOf e "href" with
       | some h => audioHrefSearch h
       | none => false)) doc with
  | none => none
  | some a => truthyStr (attrOf a "href")

/-- `get_audio_url`: the three strategies in order, first hit wins. -/
def get_audio_url (doc : List Html) : Option String :=
  match audioStrat1 doc with
  | some s => some s
  | none =>
    match audioStrat2 doc with
    | some s => some s
    | none => audioStrat3 doc

/-! Predicates formalising claim C6's hypothesis wording (spec side, for the
claim statement only — the extractor above is the code side). -/

/-- Spec wording: the document contains a figure-nested audio element whose
media-source URL is `s` (a nonempty `src`). -/
def specFigureAudioSrc (doc : List Html) (s : String) : Bool :=
  (elemsList doc).any fun fig =>
    isTag "figure" fig &&
    ((elemsList (childrenOf fig)).any fun au =>
      isTag "audio" au && (truthyStr (attrOf au "src") == some s))

/-- Spec wording: the document contains some figure-nested audio element with
a media-source URL. -/
def specHasFigureAudioSrc (doc : List Html) : Bool :=
  (elemsList doc).any fun fig =>
    isTag "figure" fig &&
    ((elemsList (childrenOf fig)).any fun au =>
      isTag "audio" au && (truthyStr (attrOf au "src")).isSome)

/-- Spec wording: the document contains an anchor whose link target ends in a
known audio file extension. -/
def specHasAudioAnchor (doc : List Html) : Bool :=
  (elemsList doc).any fun a =>
    isTag "a" a &&
    (match attrOf a "href" with
     | some h => audioHrefSearch h
     | none => false)

/-! ## Downloader (`download_file_fast`)

Network and disk are oracles. An `Except.error` result is an exception
propagating out of the function (only `Timeout`, `RequestException` and
`IOError` are caught by its handlers); an `Except.ok (success, message)` is
its normal return value. The second component of the result records whether
the streaming `GET` was issued at all. -/

/-- `Config.DOWNLOAD_TIMEOUT` (seconds). -/
def DOWNLOAD_TIMEOUT : Nat := 120

/-- Outcome of `session.head(url, timeout=5)`: a response carrying an optional
`content-length` header, or a raised exception. -/
inductive HeadResult where
  | resp (contentLength : Option String)
  | timeoutExc
  | reqExc (msg : String)

/-- Outcome of `session.get(url, stream=True, ...)`: a response with a status
code and the chunk sequence `iter_content` yields (each chunk is its byte
count paired with the wall-clock seconds elapsed when it arrives), or a
raised exception. -/
inductive GetResult where
  | resp (status : Nat) (chunks : List (Nat × Nat))
  | timeoutExc
  | reqExc (msg : String)

structure DownloadEnv where
  head : HeadResult
  get : GetResult
  /-- `IOError` raised when opening or writing the destination file. -/
  fileError : Option String

/-- Digits-only core of Python `int(...)` on the decimal digits of a string. -/
def pyIntDigits : List Char → Option Nat
  | [] => none
  | l => go l 0
where
  go : List Char → Nat → Option Nat
    | [], acc => some acc
    | c :: rest, acc =>
      if c.isDigit then go rest (acc * 10 + (c.toNat - '0'.toNat))
      else none

/-- Python `int(s)` for an optionally signed decimal string (whitespace
stripped); `none` models the `ValueError` it raises otherwise. -/
def pyInt (s : String) : Option Int :=
  match pyStrip s.toList with
  | '-' :: rest => (pyIntDigits rest).map (fun n => -(n : Int))
  | '+' :: rest => (pyIntDigits rest).map (fun n => (n : Int))
  | t => (pyIntDigits t).map (fun n => (n : Int))

/-- The chunk loop: write each nonempty chunk, then compare elapsed time
against the watchdog limit; empty chunks are skipped entirely (`if chunk:`). -/
def writeChunks : List (Nat × Nat) → Bool × String
  | [] => (true, "Success")
  | (size, elapsed) :: rest =>
    if size ≠ 0 then
      if elapsed > DOWNLOAD_TIMEOUT then (false, "Download timeout exceeded")
      else writeChunks rest
    else writeChunks rest

/-- The part of `download_file_fast` from the streaming `GET` on: status
check (`raise_for_status` raises `HTTPError`, a `RequestException`, on 4xx
and 5xx), open the destination, run the chunk loop. -/
def downloadStream (env : DownloadEnv) : Except String (Bool × String) × Bool :=
  match env.get with
  | .timeoutExc => (.ok (false, "Download timeout"), true)
  | .reqExc m => (.ok (false, "Network error: " ++ m.take 50), true)
  | .resp status chunks =>
    if 400 ≤ status then
      (.ok (false, "Network error: " ++ ("HTTP " ++ toString status).take 50), true)
    else
      match env.fileError with
      | some e => (.ok (false, "File error: " ++ e.take 50), true)
      | none => (.ok (writeChunks chunks), true)

/-- `download_file_fast`: HEAD size probe first — inside the same `try` —
then the streaming phase. A missing `content-length` defaults to `0`; a
non-numeric one makes `int(...)` raise `ValueError`, which no handler
catches (`Except.error`). A raised HEAD exception is caught and returned as
a failure result without the `GET` ever being issued. -/
def download_file_fast (env : DownloadEnv) : Except String (Bool × String) × Bool :=
  match env.head with
  | .timeoutExc => (.ok (false, "Download timeout"), false)
  | .reqExc m => (.ok (false, "Network error: " ++ m.take 50), false)
  | .resp cl =>
    match cl with
    | some s =>
      match pyInt s with
      | none => (.error ("ValueError: invalid literal for int: " ++ s), false)
      | some _ => downloadStream env
    | none => downloadStream env

/-! ## Per-item processing (`process_song`)

`ItemEnv` is the per-item external world. The returned event list records
the externally visible actions the call performed (folder creation, page
fetch); ledger writes are recorded by the orchestrator step below. An
`Except.error` is an exception escaping `process_song`. -/

inductive Phase where
  | lyrics
  | audio
deriving DecidableEq

structure Item where
  title : Option String
  artists : Option String
  url : Option String

/-- The `result` dict built by `process_song`. -/
structure SongResult where
  title : String
  success : Bool
  lyrics_saved : Bool
  audio_saved : Bool
  messages : List String
  skip_reason : Option String
deriving DecidableEq

/-- Externally visible actions of one item's processing. -/
inductive Event where
  | mkdirFolder (name : String)
  | fetchPage (url : String)
  | writeCompleted (url : String)
  | writeFailed (url : String)
deriving DecidableEq

/-- Outcome of `session.get(url, timeout=...)` for the page fetch, with the
parsed document of the body; `otherExc` stands for any non-timeout exception
raised inside the `try` block. -/
inductive FetchOutcome where
  | timeoutExc
  | otherExc (msg : String)
  | resp (status : Nat) (doc : List Html)

structure ItemEnv where
  /-- Filesystem error raised by `song_folder.mkdir(exist_ok=True)`. -/
  mkdirError : Option String
  fetch : FetchOutcome
  /-- Return value of `save_lyrics` (it catches its own `IOError`). -/
  saveLyricsOk : Bool
  /-- Environment for `download_file_fast` in the audio phase. -/
  dl : DownloadEnv

def urlOf (item : Item) : String := item.url.getD ""

def titleOf (item : Item) : String := item.title.getD "Unknown Title"

def artistOf (item : Item) : String := item.artists.getD "Unknown Artist"

def initResult (t : String) : SongResult :=
  { title := t, success := false, lyrics_saved := false, audio_saved := false,
    messages := [], skip_reason := none }

/-- The audio extension derivation: `.mp3` unless the URL's last path segment
contains a dot, in which case the text after the last dot up to a `?`. -/
def extOf (audio_url : String) : String :=
  if ((strSplitOnC audio_url '/').getLastD "").toList.contains '.' then
    "." ++ ((strSplitOnC ((strSplitOnC audio_url '.').getLastD "") '?').headD "")
  else ".mp3"

/-- `process_song`. The empty-URL early return precedes everything; folder
creation runs BEFORE the `try` block, so a filesystem error there propagates
(`Except.error`); every exception inside the `try` is converted to a message.
The audio success message's `(N.N MB)` size suffix (floating point
formatting of `stat().st_size`) is elided; no claim depends on it. -/
def process_song (item : Item) (env : ItemEnv) (tracker : ProgressData)
    (phase : Phase) : Except String (SongResult × List Event) :=
  let song_title := titleOf item
  let artist := artistOf item
  let url := urlOf item
  let result := initResult song_title
  if url = "" then
    .ok ({ result with messages := ["No URL provided"] }, [])
  else
    let folder_name := sanitize_filename (song_title ++ " - " ++ artist)
    match env.mkdirError with
    | some e => .error e
    | none =>
      let ev0 := [Event.mkdirFolder folder_name]
      match phase with
      | .lyrics =>
        if ! needs_lyrics tracker url then
          .ok ({ result with skip_reason := some "Lyrics already downloaded",
                             lyrics_saved := true }, ev0)
        else
          match env.fetch with
          | .timeoutExc =>
            .ok ({ result with messages := ["Request timeout"] }, ev0 ++ [.fetchPage url])
          | .otherExc m =>
            .ok ({ result with messages := ["Error: " ++ m.take 50] }, ev0 ++ [.fetchPage url])
          | .resp status doc =>
            let ev1 := ev0 ++ [Event.fetchPage url]
            if status ≠ 200 then
              .ok ({ result with messages := ["HTTP " ++ toString status] }, ev1)
            else
              match get_lyrics doc with
              | some _ =>
                if env.saveLyricsOk then
                  .ok ({ result with lyrics_saved := true, success := true,
                                     messages := ["✓ Lyrics saved"] }, ev1)
                else
                  .ok ({ result with messages := ["Failed to save lyrics"] }, ev1)
              | none => .ok ({ result with messages := ["No lyrics found"] }, ev1)
      | .audio =>
        if ! needs_audio tracker url then
          .ok ({ result with skip_reason := some "Audio already downloaded",
                             audio_saved := true }, ev0)
        else
          match env.fetch with
          | .timeoutExc =>
            .ok ({ result with messages := ["Request timeout"] }, ev0 ++ [.fetchPage url])
          | .otherExc m =>
            .ok ({ result with messages := ["Error: " ++ m.take 50] }, ev0 ++ [.fetchPage url])
          | .resp status doc =>
            let ev1 := ev0 ++ [Event.fetchPage url]
            if status ≠ 200 then
              .ok ({ result with messages := ["HTTP " ++ toString status] }, ev1)
            else
              match get_audio_url doc with
              | some audio_url =>
                let audio_filename := sanitize_filename song_title ++ extOf audio_url
                match download_file_fast env.dl with
                | (.error e, _) =>
                  .ok ({ result with messages := ["Error: " ++ e.take 50] }, ev1)
                | (.ok (succ, message), _) =>
                  if succ then
                    .ok ({ result with audio_saved := true, success := true,
                                       messages := ["✓ " ++ audio_filename ++ " saved"] }, ev1)
                  else
                    .ok ({ result with messages := ["Audio failed: " ++ message] }, ev1)
              | none => .ok ({ result with messages := ["No audio URL found"] }, ev1)

/-! ## Phase orchestrator (`scrape_phase`) -/

/-- The `stats` dict of `scrape_phase`. -/
structure PhaseStats where
  total : Nat
  success : Nat
  skipped : Nat
  failed : Nat
  lyrics_saved : Nat
  audio_saved : Nat
  errors : List String
deriving DecidableEq

def initStats (n : Nat) : PhaseStats :=
  { total := n, success := 0, skipped := 0, failed := 0,
    lyrics_saved := 0, audio_saved := 0, errors := [] }

/-- One iteration of the `scrape_phase` loop body: run `process_song`, then
route the result into `skipped` / `success` (with the merge-respecting
ledger write) / `failed` (with `mark_failed`). `idx` is the 1-based loop
index (it names untitled items); `t` the timestamp oracle for this item.
An exception from `process_song` propagates: the loop body has no handler. -/
def scrape_step (phase : Phase) (idx : Nat) (item : Item) (env : ItemEnv)
    (t : Nat) (stats : PhaseStats) (tracker : ProgressData) :
    Except String (PhaseStats × ProgressData × List Event) :=
  let song_title := item.title.getD ("Unknown " ++ toString idx)
  let url := urlOf item
  match process_song item env tracker phase with
  | .error e => .error e
  | .ok (result, evs) =>
    if result.skip_reason.isSome then
      .ok ({ stats with skipped := stats.skipped + 1 }, tracker, evs)
    else if result.success then
      let stats1 := { stats with
        success := stats.success + 1,
        lyrics_saved := stats.lyrics_saved + (if result.lyrics_saved then 1 else 0),
        audio_saved := stats.audio_saved + (if result.audio_saved then 1 else 0) }
      let has_lyrics := result.lyrics_saved || ! needs_lyrics tracker url
      let has_audio := result.audio_saved || ! needs_audio tracker url
      .ok (stats1, mark_completed tracker url has_lyrics has_audio t,
        evs ++ [.writeCompleted url])
    else
      let error_msg := if result.messages.isEmpty then "Unknown error"
        else String.intercalate ", " result.messages
      .ok ({ stats with failed := stats.failed + 1,
                        errors := stats.errors ++ [song_title ++ ": " ++ error_msg] },
        mark_failed tracker url error_msg t, evs ++ [.writeFailed url])

/-- The `scrape_phase` loop over the remaining catalog, accumulating stats,
ledger state and the event log; the per-item timestamp oracle is the loop
index. A propagating exception aborts the whole phase. -/
def scrape_aux (phase : Phase) : List (Item × ItemEnv) → Nat → PhaseStats →
    ProgressData → List Event → Except String (PhaseStats × ProgressData × List Event)
  | [], _, stats, tracker, evs => .ok (stats, tracker, evs)
  | (item, env) :: rest, idx, stats, tracker, evs =>
    match scrape_step phase idx item env idx stats tracker with
    | .error e => .error e
    | .ok (stats1, tracker1, evs1) =>
      scrape_aux phase rest (idx + 1) stats1 tracker1 (evs ++ evs1)

/-- `scrape_phase`: process the catalog in order starting from fresh stats
with `total = len(json_data)`. -/
def scrape_phase (phase : Phase) (catalog : List (Item × ItemEnv))
    (tracker : ProgressData) : Except String (PhaseStats × ProgressData × List Event) :=
  scrape_aux phase catalog 1 (initStats catalog.length) tracker []

/-- Events that are a network fetch or a ledger write (claim C5 forbids
these for a fully satisfied phase; folder creation is not among them). -/
def isFetchOrWrite : Event → Bool
  | .fetchPage _ => true
  | .writeCompleted _ => true
  | .writeFailed _ => true
  | .mkdirFolder _ => false

/-! ## Concrete fixtures used by witnesses and counterexamples -/

/-- A page with a lyrics container holding one paragraph. -/
def docLyrics : List Html :=
  [.elem "div" [("class", "entry-content")] [.elem "p" [] [.text "La la la"]]]

/-- A page whose first figure holds an audio element with a `src`, plus a
qualifying download anchor. -/
def docFigureAndAnchor : List Html :=
  [.elem "figure" [] [.elem "audio" [("src", "x.mp3")] []],
   .elem "a" [("href", "y.mp3")] [.text "download"]]

/-- A page whose FIRST figure holds an audio element without a usable source,
whose second figure holds one with a `src`, plus a qualifying anchor. -/
def docTwoFigures : List Html :=
  [.elem "figure" [] [.elem "audio" [] []],
   .elem "figure" [] [.elem "audio" [("src", "x.mp3")] []],
   .elem "a" [("href", "y.mp3")] [.text "download"]]

def witUrl : String := "http://site/a"

def witItem : Item := { title := some "A", artists := some "X", url := some witUrl }

/-- A ledger where `witUrl` finished the lyrics phase only. -/
def witTrackerLyr : ProgressData :=
  ⟨fun u => if u = witUrl then some ⟨true, false, 0⟩ else none, fun _ => none⟩

/-- A download environment where everything works. -/
def witDlOk : DownloadEnv := { head := .resp none, get := .resp 200 [(5, 1)], fileError := none }

/-- Per-item environment for a lyrics-phase success on `docLyrics`. -/
def witEnvLyrOk : ItemEnv :=
  { mkdirError := none, fetch := .resp 200 docLyrics, saveLyricsOk := true, dl := witDlOk }

/-- Per-item environment for an audio-phase pass over a page with no audio. -/
def witEnvNoAudio : ItemEnv :=
  { mkdirError := none, fetch := .resp 200 [], saveLyricsOk := true, dl := witDlOk }

/-- Per-item environment for an audio-phase success on `docFigureAndAnchor`. -/
def witEnvAudioOk : ItemEnv :=
  { mkdirError := none, fetch := .resp 200 docFigureAndAnchor, saveLyricsOk := true,
    dl := witDlOk }

/-- Per-item environment where creating the song folder raises. -/
def witEnvMkdirFail : ItemEnv :=
  { mkdirError := some "PermissionError: [Errno 13]", fetch := .resp 200 docLyrics,
    saveLyricsOk := true, dl := witDlOk }

/-- Per-item environment where an exception is raised inside the `try` block
(e.g. by the parser). -/
def witEnvExc : ItemEnv :=
  { mkdirError := none, fetch := .otherExc "boom", saveLyricsOk := true, dl := witDlOk }

/-- An item whose `url` field is absent. -/
def witItemNoUrl : Item := { title := some "B", artists := some "X", url := none }

/-- A ledger whose completed map holds the empty-string key with lyrics done. -/
def witTrackerEmptyUrl : ProgressData :=
  ⟨fun u => if u = "" then some ⟨true, false, 0⟩ else none, fun _ => none⟩

/-! # Theorems

Helper lemmas first, then one theorem per claim (witnesses and
counterexamples named alongside their claims). -/

/-! ## Helper lemmas about `sanitize_filename`'s pieces -/

theorem collapseWs_cons_nws (b : Char) (r : List Char) (hb : pyWs b = false) :
    collapseWs (b :: r) = b :: collapseWs r := by
  cases r with
  | nil => simp [collapseWs, hb]
  | cons c r2 => simp [collapseWs, hb]

theorem mem_collapseWs {c : Char} {l : List Char} (h : c ∈ collapseWs l) :
    c = ' ' ∨ c ∈ l := by
  induction l using collapseWs.induct with
  | case1 => simp [collapseWs] at h
  | case2 a ha =>
    simp [collapseWs, ha] at h
    simp [h]
  | case3 a ha =>
    simp [collapseWs, ha] at h
    simp [h]
  | case4 a b rest2 ha hb ih =>
    have e : collapseWs (a :: b :: rest2) = collapseWs (b :: rest2) := by
      simp [collapseWs, ha, hb]
    rw [e] at h
    rcases ih h with h1 | h1
    · exact Or.inl h1
    · exact Or.inr (List.mem_cons_of_mem a h1)
  | case5 a b rest2 ha hb ih =>
    have e : collapseWs (a :: b :: rest2) = ' ' :: collapseWs (b :: rest2) := by
      simp [collapseWs, ha, hb]
    rw [e] at h
    rcases List.mem_cons.mp h with h1 | h1
    · exact Or.inl h1
    · rcases ih h1 with h2 | h2
      · exact Or.inl h2
      · exact Or.inr (List.mem_cons_of_mem a h2)
  | case6 a b rest2 ha ih =>
    have e : collapseWs (a :: b :: rest2) = a :: collapseWs (b :: rest2) := by
      simp [collapseWs, ha]
    rw [e] at h
    rcases List.mem_cons.mp h with h1 | h1
    · exact Or.inr (h1 ▸ List.mem_cons_self a _)
    · rcases ih h1 with h2 | h2
      · exact Or.inl h2
      · exact Or.inr (List.mem_cons_of_mem a h2)

theorem noConsecWs_cons (a : Char) (l : List Char) (ha : pyWs a = false)
    (h : noConsecWs l = true) : noConsecWs (a :: l) = true := by
  cases l with
  | nil => rfl
  | cons b t =>
    rw [noConsecWs, ha]
    simpa using h

theorem noConsecWs_collapseWs (l : List Char) : noConsecWs (collapseWs l) = true := by
  induction l using collapseWs.induct with
  | case1 => rfl
  | case2 a ha => simp [collapseWs, ha, noConsecWs]
  | case3 a ha => simp [collapseWs, ha, noConsecWs]
  | case4 a b rest2 ha hb ih =>
    have e : collapseWs (a :: b :: rest2) = collapseWs (b :: rest2) := by
      simp [collapseWs, ha, hb]
    rw [e]
    exact ih
  | case5 a b rest2 ha hb ih =>
    have hb' : pyWs b = false := by simpa using hb
    have e : collapseWs (a :: b :: rest2) = ' ' :: collapseWs (b :: rest2) := by
      simp [collapseWs, ha, hb]
    rw [e]
    rw [collapseWs_cons_nws b rest2 hb'] at ih ⊢
    rw [noConsecWs, hb']
    simpa using ih
  | case6 a b rest2 ha ih =>
    have ha' : pyWs a = false := by simpa using ha
    have e : collapseWs (a :: b :: rest2) = a :: collapseWs (b :: rest2) := by
      simp [collapseWs, ha]
    rw [e]
    exact noConsecWs_cons a _ ha' ih

theorem noConsecWs_tail (a : Char) (l : List Char) (h : noConsecWs (a :: l) = true) :
    noConsecWs l = true := by
  cases l with
  | nil => rfl
  | cons b t =>
    rw [noConsecWs, Bool.and_eq_true] at h
    exact h.2

theorem noConsecWs_take : ∀ (n : Nat) (l : List Char), noConsecWs l = true →
    noConsecWs (l.take n) = true := by
  intro n
  induction n with
  | zero => intro l _; rfl
  | succ m ih =>
    intro l h
    match l with
    | [] => rfl
    | [a] => cases m <;> rfl
    | a :: b :: rest =>
      rw [noConsecWs, Bool.and_eq_true] at h
      cases m with
      | zero => rfl
      | succ k =>
        have htail := ih (b :: rest) h.2
        rw [List.take_succ_cons] at htail ⊢
        rw [List.take_succ_cons, noConsecWs, h.1]
        simpa using htail

theorem mem_pyStrip {c : Char} {l : List Char} (h : c ∈ pyStrip l) : c ∈ l := by
  unfold pyStrip at h
  rw [List.mem_reverse] at h
  have h2 := (List.dropWhile_sublist pyWs).subset h
  rw [List.mem_reverse] at h2
  exact (List.dropWhile_sublist pyWs).subset h2

/-- C9. Sanitization bound: for every input string, the sanitized name
contains none of the reserved filesystem characters, contains no run of
consecutive whitespace, and is at most 200 characters long. -/
theorem C9_sanitize_bound (name : String) :
    ((sanitize_filename name).toList.all fun c => ! illegalChar c) = true ∧
    noConsecWs (sanitize_filename name).toList = true ∧
    (sanitize_filename name).length ≤ 200 := by
  have hto : (sanitize_filename name).toList =
      (collapseWs (pyStrip (name.toList.filter fun c => ! illegalChar c))).take 200 := rfl
  refine ⟨?_, ?_, ?_⟩
  · rw [hto, List.all_eq_true]
    intro x hx
    have hx1 := List.mem_of_mem_take hx
    rcases mem_collapseWs hx1 with h1 | h1
    · subst h1; rfl
    · exact (List.mem_filter.mp (mem_pyStrip h1)).2
  · rw [hto]
    exact noConsecWs_take 200 _ (noConsecWs_collapseWs _)
  · show ((collapseWs (pyStrip (name.toList.filter fun c => ! illegalChar c))).take 200).length ≤ 200
    exact List.length_take_le 200 _

/-! ## C3 — ledger load robustness -/

/-- C3 counterexample: a ledger file whose content parses as the JSON array
`[]` is neither missing nor corrupt in the claim's sense, yet `_load` hands
the array back unvalidated — the returned value is not a state with
`completed`/`failed` maps, refuting "for every path argument, load returns
a state". -/
theorem C3_counterexample :
    tracker_load (some (some (Json.arr []))) = Json.arr [] ∧
    isStateJson (Json.arr []) = false :=
  ⟨rfl, rfl⟩

/-- C3 (amended). Load never raises (it is total); on a missing file, an
unreadable file, or unparseable content it returns the empty state
`{completed: {}, failed: {}}`; when the content parses, the parsed JSON
value is returned as-is, so the result is a well-formed state only if the
file held one. -/
theorem C3_load_robustness_amended (file : Option (Option Json)) :
    ((file = none ∨ file = some none) → tracker_load file = emptyStateJson) ∧
    (∀ j, file = some (some j) → tracker_load file = j) ∧
    isStateJson emptyStateJson = true := by
  refine ⟨?_, ?_, rfl⟩
  · rintro (rfl | rfl) <;> rfl
  · rintro j rfl
    rfl

/-- C3 witness: the amended theorem applied at a missing file, a corrupt
file, and a parsed content. -/
theorem C3_load_witness :
    tracker_load none = emptyStateJson ∧
    tracker_load (some none) = emptyStateJson ∧
    tracker_load (some (some (Json.num 3))) = Json.num 3 :=
  ⟨(C3_load_robustness_amended none).1 (Or.inl rfl),
   (C3_load_robustness_amended (some none)).1 (Or.inr rfl),
   (C3_load_robustness_amended (some (some (Json.num 3)))).2.1 (Json.num 3) rfl⟩

/-! ## C6 — audio extraction precedence -/

/-- C6 counterexample: `docTwoFigures` contains a figure-nested audio element
with a media-source URL (in its second figure) and a qualifying download
anchor, yet `get_audio_url` returns the anchor's URL, because strategy 1
looks only at the document's first figure and strategy 2 only at the
document's first audio element (which has no usable source either). -/
theorem C6_counterexample :
    specHasFigureAudioSrc docTwoFigures = true ∧
    specHasAudioAnchor docTwoFigures = true ∧
    get_audio_url docTwoFigures = some "y.mp3" ∧
    specFigureAudioSrc docTwoFigures "y.mp3" = false :=
  ⟨rfl, rfl, rfl, rfl⟩

/-- C6 (amended). Whenever the FIRST figure element of the document contains
an audio element whose `src` attribute is a nonempty URL, `get_audio_url`
returns that URL — whatever anchors the document also contains; the anchor
probe is never consulted once strategy 1 has matched. -/
theorem C6_audio_precedence_amended (doc : List Html) (fig au : Html) (s : String)
    (hfig : findTag "figure" doc = some fig)
    (hau : findTag "audio" (childrenOf fig) = some au)
    (hsrc : attrOf au "src" = some s) (hne : s ≠ "") :
    get_audio_url doc = some s := by
  have h1 : audioStrat1 doc = some s := by
    simp [audioStrat1, hfig, hau, hsrc, truthyStr, hne]
  simp [get_audio_url, h1]

/-- C6 witness: the amended theorem applied to a concrete document holding
both a figure-nested audio source and a qualifying anchor. -/
theorem C6_audio_precedence_witness : get_audio_url docFigureAndAnchor = some "x.mp3" :=
  C6_audio_precedence_amended docFigureAndAnchor
    (.elem "figure" [] [.elem "audio" [("src", "x.mp3")] []])
    (.elem "audio" [("src", "x.mp3")] []) "x.mp3" rfl rfl rfl (by decide)

/-! ## C7 — persistence-failure fatality -/

/-- C7: the code contradicts the claim. When every attempt to persist the
ledger raises (disk full, permission denied), `_save` catches the exception,
prints a console warning and RETURNS NORMALLY with nothing persisted — it is
a total function, so no signal aborts the phase and processing continues
without durability. The claim (and the spec) require an abort with a clear
signal. -/
theorem C7_save_failure_swallowed (e : String) :
    tracker_save (some e) =
      { persisted := false, warning := some ("Could not save progress: " ++ e) } :=
  rfl

/-! ## C8 — the downloader's size probe -/

/-- The streaming part of the downloader always actually issues the `GET`. -/
theorem downloadStream_snd (env : DownloadEnv) : (downloadStream env).2 = true := by
  unfold downloadStream
  cases env.get with
  | timeoutExc => rfl
  | reqExc m => rfl
  | resp status chunks =>
    by_cases h : 400 ≤ status
    · simp [h]
    · cases hf : env.fileError <;> simp [h, hf]

/-- C8 counterexample: a HEAD probe that raises a timeout is fatal — the
downloader returns `(False, "Download timeout")` at once and the streaming
`GET` is never issued (second component `false`), refuting "the downloader
still proceeds to stream the resource". -/
theorem C8_counterexample :
    download_file_fast { head := .timeoutExc, get := .resp 200 [(1, 0)], fileError := none } =
      (.ok (false, "Download timeout"), false) :=
  rfl

/-- C8 (amended). The probe is best-effort only about the size value: when
the HEAD succeeds but carries no `content-length`, the size defaults to `0`
(and is unused) and the downloader does proceed to stream. A raised HEAD
exception, by contrast, yields an immediate failure result without
streaming (see the counterexample). -/
theorem C8_size_probe_amended (env : DownloadEnv) (h : env.head = .resp none) :
    (download_file_fast env).2 = true := by
  unfold download_file_fast
  rw [h]
  exact downloadStream_snd env

/-- C8 witness: the amended theorem applied to a HEAD response without a
`content-length` header. -/
theorem C8_size_probe_witness :
    (download_file_fast { head := .resp none, get := .resp 200 [], fileError := none }).2 = true :=
  C8_size_probe_amended { head := .resp none, get := .resp 200 [], fileError := none } rfl

/-! ## Helper lemmas about `process_song` -/

/-- A successful item has a nonempty URL (the empty-URL early return fails). -/
theorem process_song_success_url {item : Item} {env : ItemEnv} {tracker : ProgressData}
    {phase : Phase} {r : SongResult} {evs : List Event}
    (h : process_song item env tracker phase = .ok (r, evs)) (hs : r.success = true) :
    urlOf item ≠ "" := by
  intro hurl
  simp only [process_song] at h
  rw [if_pos hurl] at h
  simp only [Except.ok.injEq, Prod.mk.injEq] at h
  obtain ⟨h1, -⟩ := h
  subst h1
  simp [initResult] at hs

/-- A lyrics-phase success saved the lyrics and did not touch audio. -/
theorem process_song_lyrics_flags {item : Item} {env : ItemEnv} {tracker : ProgressData}
    {r : SongResult} {evs : List Event}
    (h : process_song item env tracker .lyrics = .ok (r, evs)) (hs : r.success = true) :
    r.lyrics_saved = true ∧ r.audio_saved = false := by
  simp only [process_song] at h
  repeat' split at h
  all_goals
    first
      | exact Except.noConfusion h
      | (rw [Except.ok.injEq, Prod.mk.injEq] at h
         obtain ⟨h1, -⟩ := h
         subst h1
         first
           | exact ⟨rfl, rfl⟩
           | exact Bool.noConfusion hs)

/-- An audio-phase pass that did not skip (on a nonempty URL) found
`needs_audio` true in the ledger. -/
theorem process_song_audio_nonskip {item : Item} {env : ItemEnv} {tracker : ProgressData}
    {r : SongResult} {evs : List Event}
    (h : process_song item env tracker .audio = .ok (r, evs))
    (hk : r.skip_reason = none) (hurl : urlOf item ≠ "") :
    needs_audio tracker (urlOf item) = true := by
  by_contra hna
  rw [Bool.not_eq_true] at hna
  simp only [process_song] at h
  rw [if_neg hurl] at h
  rw [hna] at h
  repeat' split at h
  all_goals
    first
      | exact Except.noConfusion h
      | (rw [Except.ok.injEq, Prod.mk.injEq] at h
         obtain ⟨h1, -⟩ := h
         subst h1
         first
           | exact Option.noConfusion hk
           | (exfalso; simp_all))

/-! ## C1 — resume correctness across the two phases -/

/-- C1. Resume correctness: when a lyrics-phase pass over an item succeeds
(ledger write through `scrape_step`) and a later audio-phase pass over the
same item fails (again through `scrape_step`), the resulting ledger has
`needs_lyrics = false` and `needs_audio = true` for the item's URL — so a
subsequent lyrics phase skips it while the audio phase re-attempts it — and
the `mark_failed` write left the `completed` map unchanged. -/
theorem C1_resume_correctness
    (item : Item) (envL envA : ItemEnv) (t0 : ProgressData)
    (i1 i2 ts1 ts2 : Nat) (stats0 stats1 stats2 : PhaseStats)
    (r1 r2 : SongResult) (e1 e2 w1 w2 : List Event) (d1 d2 : ProgressData)
    (hp1 : process_song item envL t0 .lyrics = .ok (r1, e1))
    (hs1 : r1.success = true)
    (hk1 : r1.skip_reason = none)
    (hstep1 : scrape_step .lyrics i1 item envL ts1 stats0 t0 = .ok (stats1, d1, w1))
    (hp2 : process_song item envA d1 .audio = .ok (r2, e2))
    (hf2 : r2.success = false)
    (hk2 : r2.skip_reason = none)
    (hstep2 : scrape_step .audio i2 item envA ts2 stats1 d1 = .ok (stats2, d2, w2)) :
    needs_lyrics d2 (urlOf item) = false ∧
    needs_audio d2 (urlOf item) = true ∧
    d2.completed = d1.completed := by
  have hurl : urlOf item ≠ "" := process_song_success_url hp1 hs1
  have hflags := process_song_lyrics_flags hp1 hs1
  -- the lyrics step took the success branch, so d1 is the merge-write
  simp only [scrape_step, hp1] at hstep1
  rw [hk1, hs1] at hstep1
  simp only [Option.isSome_none, Bool.false_eq_true, if_false, if_true, ite_true,
    ite_false, Except.ok.injEq, Prod.mk.injEq] at hstep1
  obtain ⟨-, hd1, -⟩ := hstep1
  -- the audio step took the failure branch, so d2 is the mark_failed write
  simp only [scrape_step, hp2] at hstep2
  rw [hk2, hf2] at hstep2
  simp only [Option.isSome_none, Bool.false_eq_true, if_false, if_true, ite_true,
    ite_false, Except.ok.injEq, Prod.mk.injEq] at hstep2
  obtain ⟨-, hd2, -⟩ := hstep2
  have hna : needs_audio d1 (urlOf item) = true := process_song_audio_nonskip hp2 hk2 hurl
  subst hd2
  refine ⟨?_, ?_, rfl⟩
  · show needs_lyrics d1 (urlOf item) = false
    rw [← hd1]
    simp [needs_lyrics, mark_completed, hflags.1]
  · exact hna

/-- C1 witness: running the concrete lyrics-success / audio-failure scenario
through `scrape_step` on the empty ledger. -/
theorem C1_resume_correctness_witness :
    needs_lyrics (mark_failed (mark_completed emptyProgress witUrl true false 1) witUrl
        "No audio URL found" 2) witUrl = false ∧
    needs_audio (mark_failed (mark_completed emptyProgress witUrl true false 1) witUrl
        "No audio URL found" 2) witUrl = true ∧
    (mark_failed (mark_completed emptyProgress witUrl true false 1) witUrl
        "No audio URL found" 2).completed =
      (mark_completed emptyProgress witUrl true false 1).completed :=
  C1_resume_correctness witItem witEnvLyrOk witEnvNoAudio emptyProgress
    1 2 1 2 (initStats 1)
    ⟨1, 1, 0, 0, 1, 0, []⟩
    ⟨1, 1, 0, 1, 1, 0, ["A: No audio URL found"]⟩
    ⟨"A", true, true, false, ["✓ Lyrics saved"], none⟩
    ⟨"A", false, false, false, ["No audio URL found"], none⟩
    [.mkdirFolder "A - X", .fetchPage witUrl]
    [.mkdirFolder "A - X", .fetchPage witUrl]
    [.mkdirFolder "A - X", .fetchPage witUrl, .writeCompleted witUrl]
    [.mkdirFolder "A - X", .fetchPage witUrl, .writeFailed witUrl]
    (mark_completed emptyProgress witUrl true false 1)
    (mark_failed (mark_completed emptyProgress witUrl true false 1) witUrl
      "No audio URL found" 2)
    rfl rfl rfl rfl rfl rfl rfl rfl

/-! ## C2 — merge safety of the completed-entry overwrite -/

/-- C2. Merge safety: on any successful (non-skipped) pass over an item whose
URL already has a completed entry `e`, the orchestrator's overwriting
`mark_completed` stores exactly the OR of the new phase result with the prior
stored flags — so a prior `lyrics = true` survives an audio-phase success and
a prior `audio = true` survives a lyrics-phase success. -/
theorem C2_merge_safety
    (phase : Phase) (item : Item) (env : ItemEnv) (tracker : ProgressData)
    (idx t : Nat) (stats stats1 : PhaseStats) (r : SongResult)
    (evs w : List Event) (d1 : ProgressData) (e : CompletedEntry)
    (he : tracker.completed (urlOf item) = some e)
    (hp : process_song item env tracker phase = .ok (r, evs))
    (hs : r.success = true)
    (hk : r.skip_reason = none)
    (hstep : scrape_step phase idx item env t stats tracker = .ok (stats1, d1, w)) :
    d1.completed (urlOf item) =
      some ⟨r.lyrics_saved || e.lyrics, r.audio_saved || e.audio, t⟩ := by
  simp only [scrape_step, hp] at hstep
  rw [hk, hs] at hstep
  simp only [Option.isSome_none, Bool.false_eq_true, if_false, if_true, ite_true,
    ite_false, Except.ok.injEq, Prod.mk.injEq] at hstep
  obtain ⟨-, hd1, -⟩ := hstep
  rw [← hd1]
  simp [mark_completed, needs_lyrics, needs_audio, he, Bool.not_not]

/-- C2 witness: an audio-phase success over a URL whose ledger entry has
`lyrics = true` (and `audio = false`) yields a completed entry with both
flags true. -/
theorem C2_merge_safety_witness :
    (mark_completed witTrackerLyr witUrl true true 1).completed witUrl =
      some ⟨true, true, 1⟩ :=
  C2_merge_safety .audio witItem witEnvAudioOk witTrackerLyr 1 1 (initStats 1)
    ⟨1, 1, 0, 0, 0, 1, []⟩
    ⟨"A", true, false, true, ["✓ A.mp3 saved"], none⟩
    [.mkdirFolder "A - X", .fetchPage witUrl]
    [.mkdirFolder "A - X", .fetchPage witUrl, .writeCompleted witUrl]
    (mark_completed witTrackerLyr witUrl true true 1)
    ⟨true, false, 0⟩
    rfl rfl rfl rfl rfl

/-! ## C4 — exception containment at the per-item boundary -/

/-- C4 counterexample: a filesystem error while creating the item's output
folder — explicitly included by the claim — happens BEFORE `process_song`'s
`try` block, escapes the per-item boundary and aborts the whole phase loop. -/
theorem C4_counterexample :
    process_song witItem witEnvMkdirFail emptyProgress .lyrics =
      .error "PermissionError: [Errno 13]" ∧
    scrape_phase .lyrics [(witItem, witEnvMkdirFail)] emptyProgress =
      .error "PermissionError: [Errno 13]" :=
  ⟨rfl, rfl⟩

/-- C4 (amended). When folder creation does not raise, no exception escapes
`process_song` (everything else sits inside its `try`), and any caught
exception surfaces as a non-skip failure result that the orchestrator step
converts into a `PhaseResult.errors` entry plus a `mark_failed` ledger
write; only folder-creation errors, which precede the `try`, abort the
phase loop. -/
theorem C4_exception_containment_amended
    (item : Item) (env : ItemEnv) (tracker : ProgressData) (phase : Phase)
    (idx t : Nat) (stats : PhaseStats)
    (hm : env.mkdirError = none) :
    (∃ r evs, process_song item env tracker phase = .ok (r, evs)) ∧
    (∀ r evs, process_song item env tracker phase = .ok (r, evs) →
      r.skip_reason = none → r.success = false →
      ∃ msg w,
        scrape_step phase idx item env t stats tracker =
          .ok ({ stats with failed := stats.failed + 1,
                            errors := stats.errors ++
                              [item.title.getD ("Unknown " ++ toString idx) ++ ": " ++ msg] },
               mark_failed tracker (urlOf item) msg t, w)) := by
  constructor
  · cases hres : process_song item env tracker phase with
    | ok p =>
      obtain ⟨a, b⟩ := p
      exact ⟨a, b, rfl⟩
    | error e =>
      exfalso
      simp only [process_song] at hres
      repeat' split at hres
      all_goals first
        | exact Except.noConfusion hres
        | simp_all
  · intro r evs hp hk hs
    refine ⟨if r.messages.isEmpty then "Unknown error"
        else String.intercalate ", " r.messages,
      evs ++ [.writeFailed (urlOf item)], ?_⟩
    simp only [scrape_step, hp]
    rw [hk, hs]
    simp [Option.isSome_none]

set_option maxRecDepth 8000 in
/-- C4 witness: an exception raised inside the `try` block (here from the
page fetch machinery) is contained — `process_song` returns normally and the
orchestrator records the failure in the stats and the ledger. -/
theorem C4_exception_containment_witness :
    (∃ r evs, process_song witItem witEnvExc emptyProgress .lyrics = .ok (r, evs)) ∧
    (∃ msg w, scrape_step .lyrics 1 witItem witEnvExc 1 (initStats 1) emptyProgress =
      .ok ({ initStats 1 with failed := (initStats 1).failed + 1,
                              errors := (initStats 1).errors ++
                                [witItem.title.getD ("Unknown " ++ toString 1) ++ ": " ++ msg] },
           mark_failed emptyProgress (urlOf witItem) msg 1, w)) :=
  have h := C4_exception_containment_amended witItem witEnvExc emptyProgress .lyrics 1 1
    (initStats 1) rfl
  ⟨h.1, h.2 ⟨"A", false, false, false, ["Error: boom"], none⟩
    [.mkdirFolder "A - X", .fetchPage witUrl] rfl rfl rfl⟩

/-! ## C10 — items without a URL -/

/-- C10. An item with an absent or empty `url` is failed immediately: no
fetch, no folder creation, no file write (empty event list), the result
message is exactly `No URL provided`, and the orchestrator records the
failure in the ledger under the empty-string key — every URL-less item
overwriting the same `failed[""]` entry, whatever was there before. -/
theorem C10_missing_url
    (item : Item) (env : ItemEnv) (tracker : ProgressData) (phase : Phase)
    (idx t : Nat) (stats : PhaseStats)
    (hurl : urlOf item = "") :
    process_song item env tracker phase =
      .ok ({ initResult (titleOf item) with messages := ["No URL provided"] }, []) ∧
    scrape_step phase idx item env t stats tracker =
      .ok ({ stats with failed := stats.failed + 1,
                        errors := stats.errors ++
                          [item.title.getD ("Unknown " ++ toString idx) ++ ": " ++ "No URL provided"] },
           mark_failed tracker "" "No URL provided" t, [.writeFailed ""]) ∧
    ∀ prior : ProgressData,
      (mark_failed prior "" "No URL provided" t).failed "" =
        some ⟨"No URL provided", t⟩ := by
  have h1 : process_song item env tracker phase =
      .ok ({ initResult (titleOf item) with messages := ["No URL provided"] }, []) := by
    simp only [process_song]
    rw [if_pos hurl]
  refine ⟨h1, ?_, ?_⟩
  · simp only [scrape_step, h1, hurl]
    rfl
  · intro prior
    simp [mark_failed]

/-- C10 witness: the theorem applied to a concrete catalog item whose `url`
field is absent. -/
theorem C10_missing_url_witness :
    process_song witItemNoUrl witEnvLyrOk emptyProgress .lyrics =
      .ok ({ initResult "B" with messages := ["No URL provided"] }, []) ∧
    scrape_step .lyrics 1 witItemNoUrl witEnvLyrOk 1 (initStats 1) emptyProgress =
      .ok ({ initStats 1 with failed := 1, errors := ["B: No URL provided"] },
           mark_failed emptyProgress "" "No URL provided" 1, [.writeFailed ""]) ∧
    ∀ prior : ProgressData,
      (mark_failed prior "" "No URL provided" 1).failed "" =
        some ⟨"No URL provided", 1⟩ :=
  C10_missing_url witItemNoUrl witEnvLyrOk emptyProgress .lyrics 1 1 (initStats 1) rfl

/-! ## C5 — idempotence of a satisfied lyrics phase -/

/-- A lyrics-phase pass over an item whose URL already has its lyrics flag
set takes the skip path: it only creates the folder — the skip check sits
inside the `try`, after `mkdir` — and issues no fetch. -/
theorem process_song_lyrics_skip (item : Item) (env : ItemEnv) (tracker : ProgressData)
    (hurl : urlOf item ≠ "") (hm : env.mkdirError = none)
    (e : CompletedEntry) (he : tracker.completed (urlOf item) = some e)
    (hlyr : e.lyrics = true) :
    process_song item env tracker .lyrics =
      .ok ({ initResult (titleOf item) with
             skip_reason := some "Lyrics already downloaded", lyrics_saved := true },
           [.mkdirFolder (sanitize_filename (titleOf item ++ " - " ++ artistOf item))]) := by
  have hneeds : needs_lyrics tracker (urlOf item) = false := by
    simp [needs_lyrics, he, hlyr]
  simp only [process_song]
  rw [if_neg hurl, hm, hneeds]
  rfl

/-- The orchestrator step on a skipping lyrics item: `skipped` is bumped,
the ledger is untouched, and the only event is the folder creation. -/
theorem scrape_step_lyrics_skip (idx t : Nat) (stats : PhaseStats)
    (item : Item) (env : ItemEnv) (tracker : ProgressData)
    (hurl : urlOf item ≠ "") (hm : env.mkdirError = none)
    (e : CompletedEntry) (he : tracker.completed (urlOf item) = some e)
    (hlyr : e.lyrics = true) :
    scrape_step .lyrics idx item env t stats tracker =
      .ok ({ stats with skipped := stats.skipped + 1 }, tracker,
           [.mkdirFolder (sanitize_filename (titleOf item ++ " - " ++ artistOf item))]) := by
  simp only [scrape_step, process_song_lyrics_skip item env tracker hurl hm e he hlyr]
  rfl

/-- The whole loop over a catalog of skipping lyrics items: every item is
skipped, the ledger value is returned unchanged, and the appended events
contain no fetch and no ledger write. -/
theorem scrape_aux_all_skip :
    ∀ (catalog : List (Item × ItemEnv)) (idx : Nat) (stats : PhaseStats)
      (tracker : ProgressData) (evs : List Event),
      (∀ p ∈ catalog, urlOf p.1 ≠ "" ∧ p.2.mkdirError = none ∧
        ∃ e, tracker.completed (urlOf p.1) = some e ∧ e.lyrics = true) →
      ∃ evs1, scrape_aux .lyrics catalog idx stats tracker evs =
        .ok ({ stats with skipped := stats.skipped + catalog.length }, tracker,
             evs ++ evs1) ∧
        evs1.filter isFetchOrWrite = [] := by
  intro catalog
  induction catalog with
  | nil =>
    intro idx stats tracker evs _
    refine ⟨[], ?_, rfl⟩
    simp [scrape_aux]
  | cons p rest ih =>
    intro idx stats tracker evs hsat
    obtain ⟨item, env⟩ := p
    obtain ⟨hurl, hm, e, he, hlyr⟩ := hsat (item, env) (List.mem_cons_self (item, env) rest)
    obtain ⟨evs1, h1, hf⟩ := ih (idx + 1) { stats with skipped := stats.skipped + 1 } tracker
      (evs ++ [.mkdirFolder (sanitize_filename (titleOf item ++ " - " ++ artistOf item))])
      (fun q hq => hsat q (List.mem_cons_of_mem (item, env) hq))
    refine ⟨[.mkdirFolder (sanitize_filename (titleOf item ++ " - " ++ artistOf item))]
      ++ evs1, ?_, ?_⟩
    · simp only [scrape_aux,
        scrape_step_lyrics_skip idx idx stats item env tracker hurl hm e he hlyr]
      rw [h1]
      simp only [Except.ok.injEq, Prod.mk.injEq, PhaseStats.mk.injEq, List.append_assoc,
        List.length_cons]
      repeat' apply And.intro
      all_goals first
        | trivial
        | omega
    · simp [List.filter_append, isFetchOrWrite, hf]

/-- C5 counterexample, in two parts. (1) An item whose `url` field is absent
gets the key `""`; when the ledger's completed map holds `""` with
`lyrics = true`, every item of the catalog `[witItemNoUrl]` satisfies the
claim's hypothesis, yet the lyrics phase fails the item instead of skipping
it (`skipped = 0 ≠ 1 = total`) and performs a `mark_failed` ledger write.
(2) Even with nonempty URLs all satisfied, a folder-creation error aborts
the phase instead of yielding the claimed PhaseResult. -/
theorem C5_counterexample :
    (∀ p ∈ [(witItemNoUrl, witEnvLyrOk)], ∃ e,
      witTrackerEmptyUrl.completed (urlOf p.1) = some e ∧ e.lyrics = true) ∧
    scrape_phase .lyrics [(witItemNoUrl, witEnvLyrOk)] witTrackerEmptyUrl =
      .ok (⟨1, 0, 0, 1, 0, 0, ["B: No URL provided"]⟩,
           mark_failed witTrackerEmptyUrl "" "No URL provided" 1, [.writeFailed ""]) ∧
    scrape_phase .lyrics [(witItem, witEnvMkdirFail)] witTrackerLyr =
      .error "PermissionError: [Errno 13]" := by
  refine ⟨?_, rfl, rfl⟩
  intro p hp
  simp only [List.mem_singleton] at hp
  subst hp
  exact ⟨⟨true, false, 0⟩, rfl, rfl⟩

/-- C5 (amended). For every catalog whose items all have a NONEMPTY URL with
a completed ledger entry carrying `lyrics = true`, and whose folder creation
succeeds, the lyrics phase returns `success = 0`, `skipped = total`, zero
failures, the ledger value unchanged, and an event log containing no network
fetch and no ledger write (it still creates each item's folder, which the
claim does not forbid). -/
theorem C5_idempotence_amended (catalog : List (Item × ItemEnv)) (tracker : ProgressData)
    (hsat : ∀ p ∈ catalog, urlOf p.1 ≠ "" ∧ p.2.mkdirError = none ∧
      ∃ e, tracker.completed (urlOf p.1) = some e ∧ e.lyrics = true) :
    ∃ stats evs, scrape_phase .lyrics catalog tracker = .ok (stats, tracker, evs) ∧
      stats.success = 0 ∧ stats.skipped = catalog.length ∧
      stats.total = catalog.length ∧ stats.failed = 0 ∧
      evs.filter isFetchOrWrite = [] := by
  obtain ⟨evs1, h1, hf⟩ :=
    scrape_aux_all_skip catalog 1 (initStats catalog.length) tracker [] hsat
  refine ⟨_, evs1, h1, rfl, ?_, rfl, rfl, hf⟩
  show (initStats catalog.length).skipped + catalog.length = catalog.length
  simp [initStats]

/-- C5 witness: the amended theorem applied to a one-item catalog whose URL
has `completed.lyrics = true` in the ledger. -/
theorem C5_idempotence_witness :
    ∃ stats evs, scrape_phase .lyrics [(witItem, witEnvLyrOk)] witTrackerLyr =
      .ok (stats, witTrackerLyr, evs) ∧
      stats.success = 0 ∧ stats.skipped = 1 ∧ stats.total = 1 ∧ stats.failed = 0 ∧
      evs.filter isFetchOrWrite = [] :=
  C5_idempotence_amended [(witItem, witEnvLyrOk)] witTrackerLyr (by
    intro p hp
    simp only [List.mem_singleton] at hp
    subst hp
    exact ⟨by decide, rfl, ⟨true, false, 0⟩, rfl, rfl⟩)

end Loveworld
